import Mathlib

/-!
Verification of the word-counting tool of `sample_agent.py`.

The repository's only original logic is the tool `count_words`, which
computes `len(input.strip().split())` and wraps the computation in a
defensive try/except that converts any raised exception into an
error-shaped `WordCountResult`.  We embed strings as `List Char`,
the default whitespace set of Python (restricted to its ASCII members,
which is the set exercised by every claim) as `isSpace`, `str.strip()`
as `pyStrip`, argument-free `str.split()` as `pySplit`, and the
try/except as an `Except`-valued body `count_words_body` run through
the catch wrapper `toolBoundary`.
-/

namespace SampleAgent

/-- The default whitespace characters of Python (`str.strip()` and
`str.split()` with no argument), restricted to the ASCII members: space,
tab, newline, carriage return, vertical tab, form feed. -/
def isSpace (c : Char) : Bool :=
  c == ' ' || c == '\t' || c == '\n' || c == '\r' ||
    c == Char.ofNat 11 || c == Char.ofNat 12

/-- The pydantic model `WordCountResult` of `sample_agent.py` lines 19-22:
fields `word_count : int` (always non-negative here), `success : bool`,
`message : str`. -/
structure WordCountResult where
  word_count : Nat
  success : Bool
  message : String
deriving DecidableEq, Repr

/-- Python `input.strip()`: drop leading and trailing whitespace. -/
def pyStrip (s : List Char) : List Char :=
  ((s.dropWhile isSpace).reverse.dropWhile isSpace).reverse

/-- Worker for Python `str.split()` with no separator: `acc` holds the
(reversed) characters of the token currently being read. -/
def splitAux : List Char → List Char → List (List Char)
  | [], acc => if acc.isEmpty then [] else [acc.reverse]
  | c :: cs, acc =>
    if isSpace c then
      if acc.isEmpty then splitAux cs []
      else acc.reverse :: splitAux cs []
    else splitAux cs (c :: acc)

/-- Python `str.split()` with no separator: split on runs of whitespace,
discarding empty tokens. -/
def pySplit (s : List Char) : List (List Char) :=
  splitAux s []

/-- The `try`-body of `count_words` (lines 30-36): compute
`len(input.strip().split())` and build the success result.  Pure string
operations on a string argument cannot raise, so the body is always
`Except.ok`; the `Except` type records that the source wraps it in a
try/except. -/
def count_words_body (input : List Char) : Except String WordCountResult :=
  Except.ok
    { word_count := (pySplit (pyStrip input)).length
      success := true
      message := "Word count successful" }

/-- The `except Exception as e` clause (lines 37-42): any fault `e`
raised by the body is converted into the error-shaped result
`word_count = 0, success = false, message = "Error: " ++ e`; a normal
result passes through unchanged. -/
def toolBoundary (body : Except String WordCountResult) : WordCountResult :=
  match body with
  | Except.ok r => r
  | Except.error e =>
      { word_count := 0, success := false, message := "Error: " ++ e }

/-- The tool `count_words` of `sample_agent.py` lines 24-42: the body run
under the defensive catch. -/
def count_words (input : List Char) : WordCountResult :=
  toolBoundary (count_words_body input)

/-- Modelled from the spec: counts the maximal non-whitespace runs of a
string.  `inRun = true` records that the previous character was
non-whitespace, so the current character continues an already-counted
run. -/
def countRunsAux : List Char → Bool → Nat
  | [], _ => 0
  | c :: cs, inRun =>
    if isSpace c then countRunsAux cs false
    else (if inRun then 0 else 1) + countRunsAux cs true

/-- Modelled from the spec: the number of maximal non-whitespace runs in
a string. -/
def countMaximalRuns (s : List Char) : Nat :=
  countRunsAux s false

/-- The fixed sample input of `run_sample` (lines 69-72; Python adjacent
string literals concatenate). -/
def sampleInput : String :=
  "Generative AI has the potential to transform how organizations automate work, extract insights, and interact with data. It can also boost productivity."

/-! ## Helper lemmas -/

/-- The length of the token list produced by `splitAux` is the number of
maximal runs, plus one for the token still being accumulated. -/
theorem splitAux_length (l : List Char) : ∀ acc : List Char,
    (splitAux l acc).length =
      countRunsAux l (!acc.isEmpty) + (if acc.isEmpty then 0 else 1) := by
  induction l with
  | nil =>
    intro acc
    cases acc <;> simp [splitAux, countRunsAux]
  | cons c cs ih =>
    intro acc
    by_cases hc : isSpace c = true
    · cases acc with
      | nil => simp [splitAux, countRunsAux, hc, ih]
      | cons a as => simp [splitAux, countRunsAux, hc, ih]
    · cases acc with
      | nil => simp [splitAux, countRunsAux, hc, ih]; omega
      | cons a as => simp [splitAux, countRunsAux, hc, ih]

/-- A whitespace-only string has no runs. -/
theorem countRunsAux_allSpace (w : List Char) (b : Bool)
    (hw : w.all isSpace = true) : countRunsAux w b = 0 := by
  induction w generalizing b with
  | nil => rfl
  | cons c cs ih =>
    simp only [List.all_cons, Bool.and_eq_true] at hw
    simp [countRunsAux, hw.1, ih _ hw.2]

/-- Appending trailing whitespace does not change the run count. -/
theorem countRunsAux_append_space (l w : List Char) (b : Bool)
    (hw : w.all isSpace = true) :
    countRunsAux (l ++ w) b = countRunsAux l b := by
  induction l generalizing b with
  | nil => simpa [countRunsAux] using countRunsAux_allSpace w b hw
  | cons c cs ih =>
    by_cases hc : isSpace c = true <;> simp [countRunsAux, hc, ih]

/-- Prepending leading whitespace does not change the run count. -/
theorem countRunsAux_space_append (w l : List Char)
    (hw : w.all isSpace = true) :
    countRunsAux (w ++ l) false = countRunsAux l false := by
  induction w with
  | nil => rfl
  | cons c cs ih =>
    simp only [List.all_cons, Bool.and_eq_true] at hw
    simp [countRunsAux, hw.1, ih hw.2]

/-- A whitespace separator between two strings makes run counts add. -/
theorem countRunsAux_append_sep (l m : List Char) (c : Char)
    (hc : isSpace c = true) : ∀ b : Bool,
    countRunsAux (l ++ c :: m) b = countRunsAux l b + countRunsAux m false := by
  induction l with
  | nil =>
    intro b
    simp [countRunsAux, hc]
  | cons a as ih =>
    intro b
    by_cases ha : isSpace a = true
    · simp [countRunsAux, ha, ih]
    · simp [countRunsAux, ha, ih]
      omega

/-- Dropping leading whitespace does not change the run count. -/
theorem countRunsAux_dropWhile (l : List Char) :
    countRunsAux (l.dropWhile isSpace) false = countRunsAux l false := by
  induction l with
  | nil => rfl
  | cons c cs ih =>
    by_cases hc : isSpace c = true
    · simp [List.dropWhile_cons, hc, countRunsAux, ih]
    · simp [List.dropWhile_cons, hc]

/-- Dropping trailing whitespace does not change the run count. -/
theorem countRunsAux_rstrip (m : List Char) :
    countRunsAux ((m.reverse.dropWhile isSpace).reverse) false =
      countRunsAux m false := by
  have hsplit : m =
      (m.reverse.dropWhile isSpace).reverse ++
        (m.reverse.takeWhile isSpace).reverse := by
    calc m = m.reverse.reverse := (List.reverse_reverse m).symm
    _ = (m.reverse.takeWhile isSpace ++ m.reverse.dropWhile isSpace).reverse := by
        rw [List.takeWhile_append_dropWhile]
    _ = (m.reverse.dropWhile isSpace).reverse ++
          (m.reverse.takeWhile isSpace).reverse := by
        rw [List.reverse_append]
  have hw : ((m.reverse.takeWhile isSpace).reverse).all isSpace = true := by
    rw [List.all_eq_true]
    intro x hx
    rw [List.mem_reverse] at hx
    exact List.mem_takeWhile_imp hx
  conv_rhs => rw [hsplit]
  rw [countRunsAux_append_space _ _ _ hw]

/-- Trimming does not change the run count. -/
theorem countRunsAux_pyStrip (s : List Char) :
    countRunsAux (pyStrip s) false = countRunsAux s false := by
  unfold pyStrip
  rw [countRunsAux_rstrip, countRunsAux_dropWhile]

/-- Closed form of `count_words`: the success result carrying the number
of maximal non-whitespace runs of the raw input. -/
theorem count_words_eq (s : List Char) :
    count_words s =
      { word_count := countRunsAux s false
        success := true
        message := "Word count successful" } := by
  have h1 : (pySplit (pyStrip s)).length = countRunsAux (pyStrip s) false := by
    simpa [pySplit] using splitAux_length (pyStrip s) []
  simp [count_words, count_words_body, toolBoundary, h1, countRunsAux_pyStrip]

/-! ## Claim theorems -/

/-- C1: for every input string `s`, the `word_count` field of the result
of `count_words s` equals the number of maximal non-whitespace runs in
`s` after trimming leading and trailing whitespace. -/
theorem c1_word_count_counts_maximal_runs (s : List Char) :
    (count_words s).word_count = countMaximalRuns (pyStrip s) := by
  simp [count_words_eq, countMaximalRuns, countRunsAux_pyStrip]

/-- C2 counterexample: on the fixed sample input of `run_sample`,
`count_words` does not report 24 words. -/
theorem c2_counterexample :
    ¬ (count_words sampleInput.data).word_count = 24 := by
  decide

/-- C2 amended: on the fixed sample input of `run_sample`,
`count_words` reports 22 words (the string has 22 whitespace-delimited
tokens, not the 24 the spec attributes to it). -/
theorem c2_sample_word_count :
    (count_words sampleInput.data).word_count = 22 := by
  decide

/-- C3: `count_words` never lets a fault escape: it is the total
function obtained by running the body under `toolBoundary`, and
`toolBoundary` converts every fault `e` into the returned error-shaped
result with `success = false`, `word_count = 0` and message
`"Error: " ++ e`. -/
theorem c3_no_fault_escapes :
    (∀ input : List Char,
        count_words input = toolBoundary (count_words_body input)) ∧
    (∀ e : String,
        toolBoundary (Except.error e) =
          { word_count := 0, success := false, message := "Error: " ++ e }) :=
  ⟨fun _ => rfl, fun _ => rfl⟩

/-- C4: every result of `count_words` satisfies the data-model
invariant: `success = true` iff `message` equals the fixed success
string, and `word_count` is 0 on empty or whitespace-only input. -/
theorem c4_data_model_invariant (input : List Char) :
    ((count_words input).success = true ↔
      (count_words input).message = "Word count successful") ∧
    (input.all isSpace = true → (count_words input).word_count = 0) := by
  rw [count_words_eq]
  exact ⟨by simp, fun h => by simpa using countRunsAux_allSpace input false h⟩

/-- C4 witness: the invariant instantiated at the whitespace-only input
`"   "`. -/
theorem c4_witness : (count_words ("   ".data)).word_count = 0 :=
  (c4_data_model_invariant ("   ".data)).2 (by decide)

/-- C5: every empty or whitespace-only input yields `word_count = 0`
and `success = true`. -/
theorem c5_whitespace_only (s : List Char) (h : s.all isSpace = true) :
    (count_words s).word_count = 0 ∧ (count_words s).success = true := by
  rw [count_words_eq]
  exact ⟨by simpa using countRunsAux_allSpace s false h, by simp⟩

/-- C5 witness: the whitespace-only property instantiated at `"   "`. -/
theorem c5_witness :
    (count_words ("   ".data)).word_count = 0 ∧
      (count_words ("   ".data)).success = true :=
  c5_whitespace_only ("   ".data) (by decide)

/-- C6: `count_words "hello world"` is exactly
`word_count = 2, success = true, message = "Word count successful"`,
and `count_words "one  two   three"` has `word_count = 3`. -/
theorem c6_concrete_examples :
    count_words ("hello world".data) =
      { word_count := 2, success := true,
        message := "Word count successful" } ∧
    (count_words ("one  two   three".data)).word_count = 3 :=
  ⟨by decide, by decide⟩

/-- C7: the error branch of `count_words` is unreachable: for every
input the body succeeds, so the result always takes the success path. -/
theorem c7_error_branch_unreachable (input : List Char) :
    count_words_body input = Except.ok (count_words input) ∧
    (count_words input).success = true ∧
    (count_words input).message = "Word count successful" :=
  ⟨rfl, by rw [count_words_eq], by rw [count_words_eq]⟩

/-- C8: `count_words` is deterministic: two invocations on the same
input agree on all three result fields. -/
theorem c8_deterministic (s₁ s₂ : List Char) (h : s₁ = s₂) :
    (count_words s₁).word_count = (count_words s₂).word_count ∧
    (count_words s₁).success = (count_words s₂).success ∧
    (count_words s₁).message = (count_words s₂).message := by
  subst h
  exact ⟨rfl, rfl, rfl⟩

/-- C8 witness: determinism instantiated at the input `"hello world"`. -/
theorem c8_witness :
    (count_words ("hello world".data)).word_count =
        (count_words ("hello world".data)).word_count ∧
    (count_words ("hello world".data)).success =
        (count_words ("hello world".data)).success ∧
    (count_words ("hello world".data)).message =
        (count_words ("hello world".data)).message :=
  c8_deterministic ("hello world".data) ("hello world".data) rfl

/-- C9: concatenation homomorphism: a single space inserted between two
strings makes the word counts add. -/
theorem c9_concat_homomorphism (s₁ s₂ : List Char) :
    (count_words (s₁ ++ ' ' :: s₂)).word_count =
      (count_words s₁).word_count + (count_words s₂).word_count := by
  simp only [count_words_eq]
  exact countRunsAux_append_sep s₁ s₂ ' ' (by decide) false

/-- C10: padding invariance: surrounding the input with whitespace-only
strings leaves the whole result unchanged. -/
theorem c10_padding_invariance (s w₁ w₂ : List Char)
    (h₁ : w₁.all isSpace = true) (h₂ : w₂.all isSpace = true) :
    count_words (w₁ ++ s ++ w₂) = count_words s := by
  rw [count_words_eq, count_words_eq]
  rw [countRunsAux_append_space _ _ _ h₂, countRunsAux_space_append _ _ h₁]

/-- C10 witness: padding invariance instantiated at `w₁ = "  "`,
`s = "hi there"`, `w₂ = " "`. -/
theorem c10_witness :
    count_words (("  ".data) ++ ("hi there".data) ++ (" ".data)) =
      count_words ("hi there".data) :=
  c10_padding_invariance ("hi there".data) ("  ".data) (" ".data)
    (by decide) (by decide)

end SampleAgent
